import Mathlib

/-!
Verification development for the DeployStack configuration wizard.

The Go sources are embedded shallowly: Go strings become Lean `String`,
Go slices become `List`, fallible operations return `Except`/`Option`,
and a Go panic (out-of-range index) is modelled as `Option.none`.
Definitions follow the corresponding Go function bodies; functions of
this repository that are not present in the source tree (only their
tests or callers are) carry a doc comment starting with
`Modelled from the spec:` and follow the specification's words.

The Go standard-library string helpers used by the source
(`strings.ReplaceAll`, `strings.Split`, `strings.Join`,
`strings.ToLower`, `strings.TrimSpace`, `strings.Contains`) are
re-implemented below with structural recursion over character lists so
that every definition evaluates inside the kernel.
-/

namespace DeployStack

/-- Model of Go `strings.ToLower` on a character (ASCII range, which is
all the source ever lowercases). -/
def lowerChar (c : Char) : Char :=
  if 'A' ≤ c && c ≤ 'Z' then Char.ofNat (c.toNat + 32) else c

/-- Model of Go `strings.ToLower`. -/
def goToLower (s : String) : String :=
  (s.data.map lowerChar).asString

/-- Fuel-indexed worker for `goReplaceAll`; the fuel starts at the
length of the subject and every step consumes at least one character. -/
def goReplaceAllAux (pat rep : List Char) : Nat → List Char → List Char
  | _, [] => []
  | 0, l => l
  | Nat.succ n, c :: rest =>
    if pat.isPrefixOf (c :: rest) then
      rep ++ goReplaceAllAux pat rep n (List.drop (pat.length - 1) rest)
    else
      c :: goReplaceAllAux pat rep n rest

/-- Model of Go `strings.ReplaceAll`: replace every non-overlapping
occurrence of `pat` in `s` by `rep`, scanning left to right.  (Go's
behaviour on an empty pattern is never exercised by the source; here an
empty pattern leaves the string unchanged.) -/
def goReplaceAll (s pat rep : String) : String :=
  if pat.isEmpty then s
  else (goReplaceAllAux pat.data rep.data s.data.length s.data).asString

/-- Worker for `goSplitOn`: split a character list at every occurrence
of the separator character. -/
def goSplitChar (sep : Char) : List Char → List (List Char)
  | [] => [[]]
  | c :: rest =>
    if c == sep then [] :: goSplitChar sep rest
    else
      match goSplitChar sep rest with
      | [] => [[c]]
      | h :: t => (c :: h) :: t

/-- Model of Go `strings.Split` with a one-character separator (the
source only ever splits on a comma). -/
def goSplitOn (s : String) (sep : Char) : List String :=
  (goSplitChar sep s.data).map List.asString

/-- Model of Go `strings.Join`. -/
def goJoin (sep : String) : List String → String
  | [] => ""
  | [x] => x
  | x :: y :: xs => x ++ sep ++ goJoin sep (y :: xs)

/-- Model of Go `strings.TrimSpace` (ASCII whitespace). -/
def goTrim (s : String) : String :=
  ((s.data.dropWhile Char.isWhitespace).reverse.dropWhile Char.isWhitespace).reverse.asString

/-- Worker for `goContains`: does `pat` occur in the subject list? -/
def goContainsAux (pat : List Char) : List Char → Bool
  | [] => pat.isEmpty
  | c :: rest => pat.isPrefixOf (c :: rest) || goContainsAux pat rest

/-- Model of Go `strings.Contains`. -/
def goContains (s pat : String) : Bool :=
  goContainsAux pat.data s.data

instance {ε α : Type} [DecidableEq ε] [DecidableEq α] : DecidableEq (Except ε α)
  | Except.ok a, Except.ok b =>
    if h : a = b then Decidable.isTrue (by rw [h])
    else Decidable.isFalse (by intro hh; cases hh; exact h rfl)
  | Except.ok _, Except.error _ => Decidable.isFalse (by intro hh; cases hh)
  | Except.error _, Except.ok _ => Decidable.isFalse (by intro hh; cases hh)
  | Except.error e, Except.error f =>
    if h : e = f then Decidable.isTrue (by rw [h])
    else Decidable.isFalse (by intro hh; cases hh; exact h rfl)

/-- A single committed setting: the Go struct `config.Setting`
with fields `Name`, `Value`, `Type` (the latter rendered here as
`Ttype` because `Type` is reserved in Lean). -/
structure Setting where
  Name : String
  Value : String
  Ttype : String
deriving DecidableEq, Repr

/-- The Go type `config.Settings`, a slice of `Setting`. -/
abbrev Settings := List Setting

/-- Modelled from the spec: `Settings.Add` is not in the source tree.
Spec section 4.1: the Setting Store is an ordered mapping with
uniqueness by name; `Add(name, value)` updates the value in place when
the name is present and otherwise appends a new (untyped) setting. -/
def Settings.Add (s : Settings) (key value : String) : Settings :=
  if s.any (fun v => v.Name == key) then
    s.map (fun v => if v.Name == key then Setting.mk v.Name value v.Ttype else v)
  else
    s ++ [Setting.mk key value ""]

/-- Modelled from the spec: `Settings.AddWithType` is not in the source
tree; same as `Add` but records the declared type (spec section 3,
`AddTyped(name, value, type)`). -/
def Settings.AddWithType (s : Settings) (key value ttype : String) : Settings :=
  if s.any (fun v => v.Name == key) then
    s.map (fun v => if v.Name == key then Setting.mk v.Name value ttype else v)
  else
    s ++ [Setting.mk key value ttype]

/-- Modelled from the spec: `Settings.Find` is not in the source tree.
Spec section 4.1: `Find(name)` returns the setting when present and
"not present" (here `none`) otherwise. -/
def Settings.Find (s : Settings) (key : String) : Option Setting :=
  s.find? (fun v => v.Name == key)

/-- Lexicographic less-or-equal on character lists, comparing
code points; the order Go uses to compare strings. -/
def charListLe : List Char → List Char → Bool
  | [], _ => true
  | _ :: _, [] => false
  | a :: as, b :: bs =>
    if a.toNat < b.toNat then true
    else if b.toNat < a.toNat then false
    else charListLe as bs

/-- The comparison used by the Setting Store's `Sort`: by `Name`,
ascending. -/
def settingLe (a b : Setting) : Bool :=
  charListLe a.Name.data b.Name.data

/-- Modelled from the spec: `Settings.Sort` is not in the source tree;
it is called by `Stack.Terraform` (src/config/stack.go line 209) and its
behaviour is pinned by `TestStackTFvars` (src/deploystack_test.go lines
244-260), whose expected output lists the settings in ascending name
order.  Embedded as insertion sort by `Name`. -/
def Settings.Sort (s : Settings) : Settings :=
  List.insertionSort (fun a b => settingLe a b = true) s

/-- The Go struct `config.Stack`; only the `Settings` field is relevant
to the exported variables file (the `Config` field is read from disk by
collaborators outside the core). -/
structure Stack where
  Settings : Settings
deriving DecidableEq, Repr

/-- `config.NewStack` (src/config/stack.go lines 33-37). -/
def NewStack : Stack := Stack.mk []

/-- `Stack.AddSetting` (src/config/stack.go lines 175-177). -/
def Stack.AddSetting (s : Stack) (key value : String) : Stack :=
  Stack.mk (s.Settings.Add key value)

/-- `Stack.AddSettingWithType` (src/config/stack.go lines 180-182). -/
def Stack.AddSettingWithType (s : Stack) (key value ttype : String) : Stack :=
  Stack.mk (s.Settings.AddWithType key value ttype)

/-- `Stack.GetSetting` (src/config/stack.go lines 185-193). -/
def Stack.GetSetting (s : Stack) (key : String) : String :=
  match s.Settings.Find key with
  | some set => set.Value
  | none => ""

/-- One iteration of the loop body of `Stack.Terraform`
(src/config/stack.go lines 211-258): the string the iteration appends
to the result builder, the `continue` cases appending nothing.  The Go
test `v.Value[0:1] == "["` compares the first byte; as `[` is a
one-byte character this is the same as testing the first character. -/
def tfLoopBody (v : Setting) : String :=
  if v.Name == "" then ""
  else
    let label := goToLower (goReplaceAll v.Name " " "_")
    if label == "project_name" then ""
    else if label == "stack_name" then ""
    else if v.Value.length < 1 then ""
    else if v.Value.data.head? == some '[' then
      let tmp := goReplaceAll (goReplaceAll v.Value "[" "") "]" ""
      let sl := (goSplitOn tmp ',').map (fun x => "\"" ++ x ++ "\"")
      let delimtext := goJoin "," sl
      let set := goReplaceAll ("[" ++ delimtext ++ "]") "\"\"" ""
      label ++ "=" ++ set ++ "\n"
    else if v.Ttype == "string" || v.Ttype == "" then
      label ++ "=\"" ++ v.Value ++ "\"\n"
    else
      label ++ "=" ++ v.Value ++ "\n"

/-- `Stack.Terraform` (src/config/stack.go lines 206-261): sorts the
settings, then renders each through the loop body into the builder. -/
def Stack.Terraform (s : Stack) : String :=
  String.join ((s.Settings.Sort).map tfLoopBody)

/-! ## Validators (spec section 4.3) -/

/-- The named validation failures of the `Custom.Collect` validators
(`ErrorCustomNotValidPhoneNumber` appears in src/deploystack_test.go
line 332; the integer and yes/no failures are the spec's
`InvalidInteger` and `InvalidChoice`). -/
inductive CustomError where
  | notValidPhoneNumber
  | notValidInteger
  | notValidChoice
deriving DecidableEq, Repr

/-- Modelled from the spec: `massagePhoneNumber` is not in the source
tree (only its test, src/deploystack_test.go lines 324-346).  Spec
section 4.3: strips all non-digit characters, fails with the
invalid-phone-number error when no digits remain, and otherwise
prefixes the digit run with `+1.` regardless of its length.  Returned
as the Go pair (result string, optional error); the failure case
returns the empty string, matching the test's expectations. -/
def massagePhoneNumber (s : String) : String × Option CustomError :=
  let digits := (s.data.filter Char.isDigit).asString
  if digits == "" then ("", some CustomError.notValidPhoneNumber)
  else ("+1." ++ digits, none)

/-- Modelled from the spec: the yes/no validator of `Custom.Collect`
(not in the source tree; exercised by src/deploystack_test.go lines
362-366).  Spec section 4.3: accepts case-insensitive `yes/y/no/n`,
canonicalizes to `yes`/`no`, and anything else is an invalid choice. -/
def validateYesOrNo (s : String) : Except CustomError String :=
  let t := goToLower s
  if t == "yes" || t == "y" then Except.ok "yes"
  else if t == "no" || t == "n" then Except.ok "no"
  else Except.error CustomError.notValidChoice

/-- Base-10 integer parse on a character list: model of Go
`strconv.Atoi`'s accepted syntax (optional sign, at least one digit). -/
def parsesAsInt (s : String) : Bool :=
  let body :=
    match s.data with
    | '-' :: rest => rest
    | '+' :: rest => rest
    | l => l
  !body.isEmpty && body.all Char.isDigit

/-- The Go struct `deploystack.Custom` (fields as used by
src/deploystack_test.go lines 348-398). -/
structure Custom where
  Name : String
  Default : String
  Validation : String
deriving DecidableEq, Repr

/-- Modelled from the spec: `Custom.Collect` is not in the source tree
(only its test, src/deploystack_test.go lines 348-398).  Spec section
4.2: on submission, empty input uses the page's declared default; the
raw text is then passed to the validator for the declared kind.  The
`PhoneDefault` test row pins that the substituted default is massaged
before being committed; for the integer kind the spec (section 8)
states the empty-input default is returned unvalidated.  The returned
value is the `Value` the Go method stores on success. -/
def Custom.Collect (c : Custom) (input : String) : Except CustomError String :=
  let text := if input == "" then c.Default else input
  if c.Validation == "phonenumber" then
    match massagePhoneNumber text with
    | (v, none) => Except.ok v
    | (_, some e) => Except.error e
  else if c.Validation == "integer" then
    if input == "" then Except.ok c.Default
    else if parsesAsInt input then Except.ok input
    else Except.error CustomError.notValidInteger
  else if c.Validation == "yesorno" then
    validateYesOrNo text
  else
    Except.ok text

/-! ## Project creation (spec section 7, src/unnamed/part_000) -/

/-- The named failure kinds of project creation
(`ErrorProjectCreateTooLong`, `ErrorProjectInvalidCharacters`,
`ErrorProjectAlreadyExists` in src/unnamed/part_000 lines 129-160). -/
inductive ProjectError where
  | createTooLong
  | invalidCharacters
  | alreadyExists
deriving DecidableEq, Repr

/-- Modelled from the spec: `Client.ProjectCreate`'s name validation is
not in the source tree (only its test, src/unnamed/part_000 lines
129-160).  Spec sections 7 and 8: names over the length limit fail with
`TooLong` (a 55-character name must fail this way), names containing
uppercase letters or spaces fail with `InvalidCharacters`, and a name
that already exists fails with `AlreadyExists`.  The length limit is
taken as 30, the documented cloud project-id limit; it is consistent
with the test, whose 26-character uppercase name reaches the
character check while its 58-character name fails as too long. -/
def ProjectCreate (existing : List String) (name : String) : Option ProjectError :=
  if 30 < name.length then some ProjectError.createTooLong
  else if name.data.any (fun c => c.isUpper || c == ' ') then some ProjectError.invalidCharacters
  else if existing.any (fun e => e == name) then some ProjectError.alreadyExists
  else none

/-- Modelled from the spec: the project-creation page's commit step
(spec section 8): on a successful create the project id is committed to
the Setting Store under the page's key; on failure no setting is
committed and the failure kind is reported. -/
def ProjectCreateFlow (st : Stack) (existing : List String) (key name : String) :
    Stack × Option ProjectError :=
  match ProjectCreate existing name with
  | some e => (st, some e)
  | none => (st.AddSetting key name, none)

/-! ## Compute Engine list operations (src/gcloud/computeengine.go) -/

/-- The Go struct `deploystack.LabeledValue`. -/
structure LabeledValue where
  Label : String
  Value : String
  IsDefault : Bool
deriving DecidableEq, Repr

/-- The Go type `deploystack.LabeledValues`. -/
abbrev LabeledValues := List LabeledValue

/-- Modelled from the spec: `LabeledValues.SetDefault` is not in the
source tree; spec section 4.2 has the entry matching a pre-supplied
default value marked as default but not reordered. -/
def LabeledValues.SetDefault (l : LabeledValues) (value : String) : LabeledValues :=
  l.map (fun v => if v.Value == value then LabeledValue.mk v.Label value true else v)

/-- Modelled from the spec: `LabeledValues.Sort` is not in the source
tree; lists handed to pickers are "optionally pre-sorted by the
collaborator contract" (spec section 4.2), here by `Label`,
ascending. -/
def LabeledValues.Sort (l : LabeledValues) : LabeledValues :=
  List.insertionSort (fun a b => charListLe a.Label.data b.Label.data = true) l

/-- The fields of `compute.Image` read by the source: `Name` and
`Family` (deprecated images were already dropped by `ImageList`). -/
structure ComputeImage where
  Name : String
  Family : String
deriving DecidableEq, Repr

/-- The fields of `compute.MachineType` read by the source. -/
structure ComputeMachineType where
  Name : String
  Description : String
  GuestCpus : Nat
deriving DecidableEq, Repr

/-- `Client.ImageTypeListByFamily` (src/gcloud/computeengine.go lines
267-288).  The Go body indexes `lb[len(lb)-1]` with no guard; the
panic on an empty filtered list is modelled as `none`. -/
def ImageTypeListByFamily (imgs : List ComputeImage) (project family : String) :
    Option LabeledValues :=
  let lb : LabeledValues :=
    imgs.filterMap (fun v =>
      if v.Family == family then
        some (LabeledValue.mk v.Name (project ++ "/" ++ v.Name) false)
      else none)
  match lb.getLast? with
  | none => none
  | some last =>
    let last := LabeledValue.mk (last.Label ++ " (Latest)") last.Value last.IsDefault
    let lb := lb.dropLast ++ [last]
    some (LabeledValues.SetDefault (LabeledValues.Sort lb) last.Value)

/-- `Client.MachineTypeListByFamily` (src/gcloud/computeengine.go lines
211-240).  The Go body evaluates `lb[0].Value` with no guard; the panic
on an empty filtered list is modelled as `none`.  Go's `sort.Slice` by
`GuestCpus` is embedded as insertion sort (stable) on that field. -/
def MachineTypeListByFamily (imgs : List ComputeMachineType) (family : String) :
    Option LabeledValues :=
  let tempTypes := imgs.filter (fun v => goContains v.Name family)
  let tempTypes := List.insertionSort (fun a b => a.GuestCpus ≤ b.GuestCpus) tempTypes
  let lb : LabeledValues :=
    tempTypes.filterMap (fun v =>
      if goContains v.Name family then
        some (LabeledValue.mk (v.Name ++ " " ++ v.Description) v.Name false)
      else none)
  match lb.head? with
  | none => none
  | some first => some (LabeledValues.SetDefault lb first.Value)

/-- `ComputeImageTypeListByFamily` (src/gcloud/computeengine.go lines
542-559), the older package-level copy of `ImageTypeListByFamily`; its
body is character-for-character the same modulo receiver, so it is
embedded by the same translation. -/
def ComputeImageTypeListByFamily (imgs : List ComputeImage) (project family : String) :
    Option LabeledValues :=
  ImageTypeListByFamily imgs project family

/-- `ComputeMachineTypeListByFamily` (src/gcloud/computeengine.go lines
494-519), the older package-level copy of `MachineTypeListByFamily`,
embedded by the same translation. -/
def ComputeMachineTypeListByFamily (imgs : List ComputeMachineType) (family : String) :
    Option LabeledValues :=
  MachineTypeListByFamily imgs family

/-! ## The tui picker page and its queue (src/unnamed/part_001)

The bubbletea/bubbles collaborator is embedded as plain data: the
`list.Model` becomes the list of its items plus a cursor, a rendered
(styled) label becomes a tagged constructor, and the returned
`tea.Cmd` becomes a small command datatype.  Keystroke filtering
(`list.Filtering`) is a collaborator feature never active here. -/

/-- A choice label; `billingDisabledStyled s` stands for
`billingDisabledStyle.Render s` of the terminal-styling collaborator. -/
inductive ChoiceLabel where
  | plain (s : String)
  | billingDisabledStyled (s : String)
deriving DecidableEq, Repr

/-- The Go struct `tui.item` (src/unnamed/part_001 lines 538-540). -/
structure Item where
  label : ChoiceLabel
  value : String
deriving DecidableEq, Repr

/-- The Go struct `tui.errMsg` as used by the picker: the failure text,
an optional user message and the recovery-target page key. -/
structure ErrMsg where
  err : String
  usermsg : String
  target : String
deriving DecidableEq, Repr

/-- The commands a picker update can hand back to the runtime
(`tea.Cmd` values): nothing, quit, a spinner tick, the queue's
advance, a post-processor launch, or the jump performed by
`goToModel`. -/
inductive Cmd where
  | noCmd
  | quit
  | tick
  | next
  | post
  | jumped
deriving DecidableEq, Repr

/-- The Go struct `tui.picker` (src/unnamed/part_001 lines 544-549)
with the embedded `dynamicPage` fields it reads: its state string, its
setting key, the last selected value, the error and recovery target,
the list items with the list cursor, and whether a post-processor is
attached. -/
structure Picker where
  state : String
  key : String
  value : String
  err : Option ErrMsg
  target : String
  items : List Item
  cursor : Nat
  hasPost : Bool
deriving DecidableEq, Repr

/-- The Queue of pages: the ordered page keys, the current position,
and the Setting Store owned through the stack. -/
structure Queue where
  keys : List String
  current : Nat
  stack : Stack
deriving DecidableEq, Repr

/-- Modelled from the spec: `Queue.clear` is not in the source tree
(called at src/unnamed/part_001 line 642).  Spec section 4.2: the Queue
clears committed state for pages from the recovery point onward; here
the settings whose names are keys of pages at or after the target page
are deleted.  An unknown target clears nothing. -/
def Queue.clear (q : Queue) (target : String) : Queue :=
  match q.keys.indexOf? target with
  | none => q
  | some idx =>
    let cleared := q.keys.drop idx
    Queue.mk q.keys q.current
      (Stack.mk (q.stack.Settings.filter (fun s => !cleared.any (fun k => k == s.Name))))

/-- Modelled from the spec: `Queue.goToModel` is not in the source tree
(called at src/unnamed/part_001 line 643).  Spec section 4.4 `GoTo`:
jumps to the page with the given key; an unknown target leaves the
position unchanged (the Queue reports it, section 4.4 errors). -/
def Queue.goToModel (q : Queue) (target : String) : Queue :=
  match q.keys.indexOf? target with
  | none => q
  | some idx => Queue.mk q.keys idx q.stack

/-- Modelled from the spec: `Queue.next` is not in the source tree
(called at src/unnamed/part_001 lines 605 and 639).  Spec section 4.4
`Next()`: advances the cursor. -/
def Queue.next (q : Queue) : Queue :=
  Queue.mk q.keys (q.current + 1) q.stack

/-- `list.Model.InsertItem` of the bubbles collaborator: insert at the
given index, appending when the index is at or past the end. -/
def insertItemAt (l : List Item) (i : Nat) (v : Item) : List Item :=
  l.take i ++ [v] ++ l.drop i

/-- The result-merge loop of `picker.Update`'s `[]list.Item` case
(src/unnamed/part_001 lines 588-592): `offset` is the length of the
list before the loop and item `i` is inserted at `i+offset`. -/
def pickerInsertLoop (offset : Nat) : Nat → List Item → List Item → List Item
  | _, acc, [] => acc
  | i, acc, v :: rest => pickerInsertLoop offset (i + 1) (insertItemAt acc (i + offset) v) rest

/-- The merge of an incoming fetch result into the picker's list
(src/unnamed/part_001 lines 585-592). -/
def pickerMergeItems (cur incoming : List Item) : List Item :=
  pickerInsertLoop cur.length 0 cur incoming

/-- The messages `picker.Update` handles (src/unnamed/part_001 lines
582-664): a successful fetch result, a failure, a success/commit
message, and a keystroke.  Spinner ticks and other window messages fall
into the Go `default` branch, which only forwards to the collaborator
components. -/
inductive Msg where
  | listItems (items : List Item)
  | errMsg (e : ErrMsg)
  | successMsg (unset : Bool)
  | keyMsg (key : String)
deriving DecidableEq, Repr

/-- `picker.Update` (src/unnamed/part_001 lines 582-664), returning the
updated picker, the queue after any calls the update makes on it, and
the command handed back.  Branch by branch:
fetch items are appended (state becomes `displaying`, spinner keeps
ticking); a failure stores the error and its recovery target; a
success message commits the value unless `unset` and advances the
queue; `ctrl+c` quits; `enter` in `displaying` reads the selected item,
commits it and either launches the post-processor or advances, while
`enter` with a stored error jumps through `clear`/`goToModel` when a
recovery target exists and otherwise falls through to the final
no-state-change return. -/
def pickerUpdate (p : Picker) (q : Queue) : Msg → Picker × Queue × Cmd
  | Msg.listItems items =>
    (Picker.mk "displaying" p.key p.value p.err p.target
        (pickerMergeItems p.items items) p.cursor p.hasPost,
      q, Cmd.tick)
  | Msg.errMsg m =>
    (Picker.mk "idle" p.key p.value (some m) m.target p.items p.cursor p.hasPost,
      q, Cmd.noCmd)
  | Msg.successMsg unset =>
    let q := if !unset then Queue.mk q.keys q.current (q.stack.AddSetting p.key p.value) else q
    (Picker.mk "idle" p.key p.value p.err p.target p.items p.cursor p.hasPost,
      q.next, Cmd.next)
  | Msg.keyMsg k =>
    if k == "ctrl+c" then (p, q, Cmd.quit)
    else if k == "enter" then
      if p.state == "displaying" then
        let value :=
          match p.items.get? p.cursor with
          | some i => i.value
          | none => p.value
        let p := Picker.mk p.state p.key value p.err p.target p.items p.cursor p.hasPost
        let q := Queue.mk q.keys q.current (q.stack.AddSetting p.key p.value)
        if p.hasPost then
          (Picker.mk "querying" p.key p.value none p.target p.items p.cursor p.hasPost,
            q, Cmd.post)
        else
          (p, q.next, Cmd.next)
      else if p.err.isSome && p.target != "" then
        (p, (q.clear p.target).goToModel p.target, Cmd.jumped)
      else (p, q, Cmd.noCmd)
    else (p, q, Cmd.noCmd)

/-! ## Project choices (src/unnamed/part_001 lines 12-34 and the
project picker) -/

/-- The Go struct `ProjectWithBilling` (src/deploystack_test.go lines
625-638). -/
structure ProjectWithBilling where
  Name : String
  ID : String
  BillingEnabled : Bool
deriving DecidableEq, Repr

/-- The item construction of `getProjects` (src/unnamed/part_001 lines
19-30): billing-disabled projects keep their untrimmed id and get a
styled `(Billing Diabled)` label; the rest are trimmed name/id pairs. -/
def getProjectsItems (ps : List ProjectWithBilling) : List Item :=
  ps.map (fun v =>
    if !v.BillingEnabled then
      Item.mk (ChoiceLabel.billingDisabledStyled (v.Name ++ " (Billing Diabled)")) v.ID
    else
      Item.mk (ChoiceLabel.plain (goTrim v.Name)) (goTrim v.ID))

/-- A displayed picker choice: its label, its value and whether it is
marked as the default. -/
structure Choice where
  label : ChoiceLabel
  value : String
  isDefault : Bool
deriving DecidableEq, Repr

/-- The synthetic create-new entry of the project picker
(`CREATE NEW PROJECT` in src/deploystack_test.go lines 680 and 693). -/
def createNewProjectChoice : Choice :=
  Choice.mk (ChoiceLabel.plain "CREATE NEW PROJECT") "" false

/-- Modelled from the spec: the project picker's choice-list
construction (`Projects.Collect`, exercised by src/deploystack_test.go
lines 624-741, is not in the source tree).  Spec section 4.2: the
synthetic create-new entry is always placed first; the remaining
entries retain the collaborator's returned order (built here through
`getProjectsItems` from the source); the entry matching the
pre-supplied default value is marked as default but not reordered. -/
def projectChoiceList (ps : List ProjectWithBilling) (defaultProject : String) : List Choice :=
  createNewProjectChoice ::
    (getProjectsItems ps).map (fun it => Choice.mk it.label it.value (it.value == defaultProject))

end DeployStack


namespace DeployStack
/-! ## Order lemmas for the Setting Store's sort -/

theorem charToNat_inj {a b : Char} (h : a.toNat = b.toNat) : a = b := by
  rw [← Char.ofNat_toNat a, h, Char.ofNat_toNat]

theorem charListLe_total : ∀ a b : List Char, charListLe a b = true ∨ charListLe b a = true := by
  intro a
  induction a with
  | nil => intro b; left; simp [charListLe]
  | cons x xs ih =>
    intro b
    cases b with
    | nil => right; simp [charListLe]
    | cons y ys =>
      by_cases h1 : x.toNat < y.toNat
      · left; simp [charListLe, h1]
      · by_cases h2 : y.toNat < x.toNat
        · right; simp [charListLe, h2]
        · rcases ih ys with h | h
          · left; simp [charListLe, h1, h2, h]
          · right; simp [charListLe, h1, h2, h]

theorem charListLe_trans :
    ∀ a b c : List Char, charListLe a b = true → charListLe b c = true → charListLe a c = true := by
  intro a
  induction a with
  | nil => intro b c _ _; simp [charListLe]
  | cons x xs ih =>
    intro b c hab hbc
    cases b with
    | nil => simp [charListLe] at hab
    | cons y ys =>
      cases c with
      | nil => simp [charListLe] at hbc
      | cons z zs =>
        rcases Nat.lt_trichotomy x.toNat y.toNat with hxy | hxy | hxy
        · rcases Nat.lt_trichotomy y.toNat z.toNat with hyz | hyz | hyz
          · simp [charListLe, Nat.lt_trans hxy hyz]
          · simp [charListLe, hyz ▸ hxy]
          · simp [charListLe, hyz, Nat.lt_asymm hyz] at hbc
        · rcases Nat.lt_trichotomy y.toNat z.toNat with hyz | hyz | hyz
          · simp [charListLe, hxy ▸ hyz]
          · have hxz : ¬ x.toNat < z.toNat := by omega
            have hzx : ¬ z.toNat < x.toNat := by omega
            simp only [charListLe, if_neg (by omega : ¬ x.toNat < y.toNat),
              if_neg (by omega : ¬ y.toNat < x.toNat)] at hab
            simp only [charListLe, if_neg (by omega : ¬ y.toNat < z.toNat),
              if_neg (by omega : ¬ z.toNat < y.toNat)] at hbc
            simp only [charListLe, if_neg hxz, if_neg hzx]
            exact ih ys zs hab hbc
          · simp [charListLe, hyz, Nat.lt_asymm hyz] at hbc
        · simp [charListLe, hxy, Nat.lt_asymm hxy] at hab

theorem charListLe_antisymm :
    ∀ a b : List Char, charListLe a b = true → charListLe b a = true → a = b := by
  intro a
  induction a with
  | nil => intro b _ hba; cases b with
    | nil => rfl
    | cons y ys => simp [charListLe] at hba
  | cons x xs ih =>
    intro b hab hba
    cases b with
    | nil => simp [charListLe] at hab
    | cons y ys =>
      rcases Nat.lt_trichotomy x.toNat y.toNat with hxy | hxy | hxy
      · simp [charListLe, hxy, Nat.lt_asymm hxy] at hba
      · have hx : ¬ x.toNat < y.toNat := by omega
        have hy : ¬ y.toNat < x.toNat := by omega
        simp only [charListLe, if_neg hx, if_neg hy] at hab
        simp only [charListLe, if_neg hy, if_neg hx] at hba
        rw [charToNat_inj hxy, ih ys hab hba]
      · simp [charListLe, hxy, Nat.lt_asymm hxy] at hab

instance : IsTotal Setting (fun a b => settingLe a b = true) :=
  ⟨fun a b => charListLe_total a.Name.data b.Name.data⟩

instance : IsTrans Setting (fun a b => settingLe a b = true) :=
  ⟨fun _ _ _ hab hbc => charListLe_trans _ _ _ hab hbc⟩

/-- The strict version of the sort order used to identify sorted
permutations: at-most plus distinct names. -/
def settingLtName (a b : Setting) : Prop := settingLe a b = true ∧ a.Name ≠ b.Name

instance : IsAntisymm Setting settingLtName :=
  ⟨fun a b hab hba => by
    have hdata : a.Name.data = b.Name.data := charListLe_antisymm _ _ hab.1 hba.1
    exact absurd (String.ext hdata) hab.2⟩

end DeployStack

namespace DeployStack

/-! ## C1: export ordering -/

/-- C1, counterexample: committing `b` then `a` does not export in
insertion order — `Stack.Terraform` lists `a` first, so the claim that
the exported sequence lists the settings in the order they were added
fails on this input. -/
theorem c1_counterexample :
    ((NewStack.AddSetting "b" "2").AddSetting "a" "1").Terraform = "a=\"1\"\nb=\"2\"\n" ∧
    ((NewStack.AddSetting "b" "2").AddSetting "a" "1").Terraform ≠ "b=\"2\"\na=\"1\"\n" :=
  ⟨by decide, by decide⟩

/-- C1, amended: `Stack.Terraform` sorts the committed settings by name
before rendering, so for committed settings with pairwise-distinct
names the export is the same for every insertion order (and coincides
with insertion order exactly when the settings were added in name
order, as in the spec's `{a:"1", b:"2"}` example). -/
theorem c1_export_independent_of_insertion_order
    (l₁ l₂ : Settings) (hnd : (l₁.map Setting.Name).Nodup) (hp : l₁.Perm l₂) :
    (Stack.mk l₁).Terraform = (Stack.mk l₂).Terraform := by
  have hnd₂ : (l₂.map Setting.Name).Nodup := ((hp.map Setting.Name).nodup_iff).mp hnd
  have hperm : (Settings.Sort l₁).Perm (Settings.Sort l₂) :=
    (List.perm_insertionSort _ l₁).trans (hp.trans (List.perm_insertionSort _ l₂).symm)
  have hpair₁ : (Settings.Sort l₁).Pairwise (fun a b => a.Name ≠ b.Name) := by
    have h := (((List.perm_insertionSort (fun a b => settingLe a b = true) l₁).map
      Setting.Name).nodup_iff).mpr hnd
    exact List.pairwise_map.mp h
  have hpair₂ : (Settings.Sort l₂).Pairwise (fun a b => a.Name ≠ b.Name) := by
    have h := (((List.perm_insertionSort (fun a b => settingLe a b = true) l₂).map
      Setting.Name).nodup_iff).mpr hnd₂
    exact List.pairwise_map.mp h
  have hs₁ : List.Sorted settingLtName (Settings.Sort l₁) :=
    List.Pairwise.imp₂ (fun _ _ hle hne => And.intro hle hne)
      (List.sorted_insertionSort _ l₁) hpair₁
  have hs₂ : List.Sorted settingLtName (Settings.Sort l₂) :=
    List.Pairwise.imp₂ (fun _ _ hle hne => And.intro hle hne)
      (List.sorted_insertionSort _ l₂) hpair₂
  have heq : Settings.Sort l₁ = Settings.Sort l₂ :=
    List.eq_of_perm_of_sorted hperm hs₁ hs₂
  show String.join ((Settings.Sort l₁).map tfLoopBody) =
    String.join ((Settings.Sort l₂).map tfLoopBody)
  rw [heq]

/-- C1, witness: the amended theorem applied to the two insertion
orders of the `b`/`a` example. -/
theorem c1_export_independent_of_insertion_order_witness :
    ([Setting.mk "b" "2" "", Setting.mk "a" "1" ""].map Setting.Name).Nodup ∧
    List.Perm [Setting.mk "b" "2" "", Setting.mk "a" "1" ""]
      [Setting.mk "a" "1" "", Setting.mk "b" "2" ""] ∧
    (Stack.mk [Setting.mk "b" "2" "", Setting.mk "a" "1" ""]).Terraform =
      (Stack.mk [Setting.mk "a" "1" "", Setting.mk "b" "2" ""]).Terraform :=
  ⟨by decide, by decide,
    c1_export_independent_of_insertion_order _ _ (by decide) (by decide)⟩

end DeployStack

namespace DeployStack

/-! ## C2: the exported variables-file format -/

/-- The output key of a setting in the variables file: the name
lowercased with spaces replaced by underscores (the serializer's
`label`). -/
def tfKey (v : Setting) : String := goToLower (goReplaceAll v.Name " " "_")

/-- Which settings the serializer emits a line for (amended claim C2):
the name and the value must be nonempty and the output key must be
neither `project_name` nor `stack_name`. -/
def tfEmits (v : Setting) : Bool :=
  v.Name != "" && v.Value != "" && tfKey v != "project_name" && tfKey v != "stack_name"

/-- The rendering of a value that begins with `[` (amended claim C2):
brackets stripped, the comma-separated elements each double-quoted and
rejoined inside brackets, with any adjacent double-quote pair deleted
from the rendered text (which drops the quotes around empty
elements). -/
def tfListRender (value : String) : String :=
  goReplaceAll
    ("[" ++
        goJoin ","
          ((goSplitOn (goReplaceAll (goReplaceAll value "[" "") "]" "") ',').map
            (fun x => "\"" ++ x ++ "\"")) ++
      "]")
    "\"\"" ""

/-- The `key=value` line of one emitted setting (claim C2): values
beginning with `[` are rendered as the quoted list, string-typed (or
untyped) values are double-quoted, and other typed values appear
verbatim. -/
def tfSpecLine (v : Setting) : String :=
  if v.Value.data.head? == some '[' then tfKey v ++ "=" ++ tfListRender v.Value ++ "\n"
  else if v.Ttype == "string" || v.Ttype == "" then tfKey v ++ "=\"" ++ v.Value ++ "\"\n"
  else tfKey v ++ "=" ++ v.Value ++ "\n"

theorem string_append_assoc (a b c : String) : a ++ b ++ c = a ++ (b ++ c) := by
  apply String.ext
  simp [List.append_assoc]

theorem string_empty_append (a : String) : "" ++ a = a := by
  apply String.ext
  simp

theorem stringJoin_cons (s : String) (l : List String) :
    String.join (s :: l) = s ++ String.join l := by
  show List.foldl (fun r t => r ++ t) ("" ++ s) l = s ++ List.foldl (fun r t => r ++ t) "" l
  rw [string_empty_append]
  induction l generalizing s with
  | nil =>
    show s = s ++ ""
    apply String.ext
    simp
  | cons x t ih =>
    show List.foldl (fun r t => r ++ t) (s ++ x) t = s ++ List.foldl (fun r t => r ++ t) ("" ++ x) t
    rw [string_empty_append, ih, ih x, ← string_append_assoc]

theorem string_length_lt_one_iff (s : String) : (s.length < 1) ↔ s = "" := by
  constructor
  · intro h
    apply String.ext
    have : s.data.length = 0 := by
      have hd : s.length = s.data.length := rfl
      omega
    exact List.length_eq_zero.mp this
  · intro h
    rw [h]
    decide

theorem tfLoopBody_eq_spec (v : Setting) :
    tfLoopBody v = if tfEmits v then tfSpecLine v else "" := by
  by_cases h1 : v.Name = ""
  · simp [tfLoopBody, tfEmits, h1]
  · by_cases h2 : tfKey v = "project_name"
    · simp [tfLoopBody, tfEmits, tfKey] at h2 ⊢
      simp [h1, h2]
    · by_cases h3 : tfKey v = "stack_name"
      · simp [tfLoopBody, tfEmits, tfKey] at h2 h3 ⊢
        simp [h1, h2, h3]
      · by_cases h4 : v.Value = ""
        · have hlen : v.Value.length < 1 := by rw [h4]; decide
          simp [tfLoopBody, tfEmits, tfKey] at h2 h3 ⊢
          simp [h1, h2, h3, h4, hlen]
        · have hlen : ¬ v.Value.length < 1 := by
            intro h
            exact h4 ((string_length_lt_one_iff v.Value).mp h)
          simp [tfLoopBody, tfEmits, tfSpecLine, tfKey, tfListRender] at h2 h3 ⊢
          simp [h1, h2, h3, h4, hlen]
          intro hh
          exact absurd (by omega) hlen

theorem terraform_join_spec (l : Settings) :
    String.join (l.map tfLoopBody) = String.join ((l.filter tfEmits).map tfSpecLine) := by
  induction l with
  | nil => rfl
  | cons v t ih =>
    by_cases h : tfEmits v = true
    · rw [List.filter_cons_of_pos h]
      show String.join (tfLoopBody v :: t.map tfLoopBody) =
        String.join (tfSpecLine v :: (t.filter tfEmits).map tfSpecLine)
      rw [stringJoin_cons, stringJoin_cons, ih, tfLoopBody_eq_spec, if_pos h]
    · rw [List.filter_cons_of_neg h]
      show String.join (tfLoopBody v :: t.map tfLoopBody) =
        String.join ((t.filter tfEmits).map tfSpecLine)
      rw [stringJoin_cons, tfLoopBody_eq_spec, if_neg h, ih, string_empty_append]

/-- C2, counterexample: a store holding the settings `project` and `x`
where `x` has an empty value exports only the `project` line, so "one
`key=value` line per setting" fails on this state (the claimed
two-line output differs from the actual one). -/
theorem c2_counterexample :
    (Stack.mk [Setting.mk "project" "testproject" "", Setting.mk "x" "" ""]).Terraform =
      "project=\"testproject\"\n" ∧
    (Stack.mk [Setting.mk "project" "testproject" "", Setting.mk "x" "" ""]).Terraform ≠
      "project=\"testproject\"\nx=\"\"\n" :=
  ⟨by decide, by decide⟩

/-- C2, amended: for every store state the exported file consists of
one `key=value` line per setting with nonempty name and nonempty
value whose output key (the name lowercased, spaces to underscores) is
neither `project_name` nor `stack_name`, in name-sorted order; values
beginning with `[` are rendered as a bracketed comma-separated list of
double-quoted elements (with empty quoted elements deleted), string-
or untyped values are double-quoted, and other typed values appear
verbatim. -/
theorem c2_export_format (st : Stack) :
    st.Terraform = String.join (((Settings.Sort st.Settings).filter tfEmits).map tfSpecLine) := by
  show String.join ((Settings.Sort st.Settings).map tfLoopBody) = _
  rw [terraform_join_spec]

end DeployStack

namespace DeployStack

/-! ## C3, C4, C5: validators -/

theorem asString_eq_empty_iff (l : List Char) : l.asString = "" ↔ l = [] :=
  ⟨fun h => congrArg String.data h, fun h => by rw [h]; rfl⟩

/-- C3: the phone validator strips all non-digit characters, fails with
the invalid-phone-number error exactly when no digits remain, and
otherwise returns the digit run prefixed with `+1.` regardless of the
digit count; in particular `800 555 1234` normalizes to
`+1.8005551234` (and the other two test vectors behave as the source
test expects). -/
theorem c3_phone_normalization :
    (∀ s : String,
      ((massagePhoneNumber s).2 = some CustomError.notValidPhoneNumber ↔
        s.data.filter Char.isDigit = []) ∧
      ((massagePhoneNumber s).2 = none →
        (massagePhoneNumber s).1 = "+1." ++ (s.data.filter Char.isDigit).asString)) ∧
    massagePhoneNumber "800 555 1234" = ("+1.8005551234", none) ∧
    massagePhoneNumber "d746fd83843" = ("+1.74683843", none) ∧
    massagePhoneNumber "dghdhdfuejfhfhfhrghfhfhdhgreh" =
      ("", some CustomError.notValidPhoneNumber) := by
  refine ⟨?_, by decide, by decide, by decide⟩
  intro s
  simp only [massagePhoneNumber]
  by_cases h : (s.data.filter Char.isDigit).asString = ""
  · rw [if_pos (by simp [h])]
    exact ⟨⟨fun _ => (asString_eq_empty_iff _).mp h, fun _ => rfl⟩,
      fun hnone => absurd hnone (by simp)⟩
  · rw [if_neg (by simp [h])]
    have hfil : s.data.filter Char.isDigit ≠ [] :=
      fun hc => h ((asString_eq_empty_iff _).mpr hc)
    exact ⟨⟨fun hnone => absurd hnone (by simp), fun hc => absurd hc hfil⟩,
      fun _ => rfl⟩

/-- C3, witness: the general part of the theorem applied at
`800 555 1234`, discharging the success hypothesis there. -/
theorem c3_phone_normalization_witness :
    (massagePhoneNumber "800 555 1234").2 = none ∧
    (massagePhoneNumber "800 555 1234").1 =
      "+1." ++ ("800 555 1234".data.filter Char.isDigit).asString :=
  ⟨by decide, (c3_phone_normalization.1 "800 555 1234").2 (by decide)⟩

/-- C4: the yes/no validator accepts exactly the case-insensitive
forms of `yes`/`y`/`no`/`n`, canonicalizing to `yes` or `no`, and
fails with the invalid-choice error on everything else; in particular
`y` gives `yes`, `N` gives `no` and `maybe` is rejected. -/
theorem c4_yes_or_no :
    validateYesOrNo "y" = Except.ok "yes" ∧
    validateYesOrNo "N" = Except.ok "no" ∧
    validateYesOrNo "maybe" = Except.error CustomError.notValidChoice ∧
    ∀ s : String,
      (validateYesOrNo s = Except.ok "yes" ↔ (goToLower s = "yes" ∨ goToLower s = "y")) ∧
      (validateYesOrNo s = Except.ok "no" ↔ (goToLower s = "no" ∨ goToLower s = "n")) ∧
      (validateYesOrNo s = Except.error CustomError.notValidChoice ↔
        ¬(goToLower s = "yes" ∨ goToLower s = "y" ∨ goToLower s = "no" ∨ goToLower s = "n")) := by
  refine ⟨by decide, by decide, by decide, ?_⟩
  intro s
  simp only [validateYesOrNo]
  by_cases h1 : goToLower s = "yes"
  · simp [h1]
  · by_cases h2 : goToLower s = "y"
    · simp [h1, h2]
    · by_cases h3 : goToLower s = "no"
      · simp [h1, h2, h3]
      · by_cases h4 : goToLower s = "n"
        · simp [h1, h2, h3, h4]
        · simp [h1, h2, h3, h4]

/-- C4, witness: the characterization applied at `Y`, discharging its
hypothesis with the concrete lowercase form. -/
theorem c4_yes_or_no_witness : validateYesOrNo "Y" = Except.ok "yes" :=
  ((c4_yes_or_no.2.2.2 "Y").1).mpr (Or.inr (by decide))

/-- C5, counterexample: for the phone kind with declared default
`215-555-5321`, submitting empty input commits the massaged value
`+1.2155555321` (exactly as the source test `PhoneDefault` expects),
which is not the page's declared default — so "commits the page's
declared default" fails. -/
theorem c5_counterexample :
    (Custom.mk "test" "215-555-5321" "phonenumber").Collect "" = Except.ok "+1.2155555321" ∧
    ("+1.2155555321" : String) ≠ "215-555-5321" :=
  ⟨by decide, by decide⟩

/-- C5, amended: submitting empty input substitutes the declared
default as the raw submission — for the phone and yes/no kinds the
committed value is the validator's normalization of the default (for
phone, the massaged number), not necessarily the default verbatim —
while for the integer kind the empty-input default is returned
unvalidated; `Validator(integer, "abc")` fails with the
invalid-integer error. -/
theorem c5_empty_input_uses_default :
    (∀ n d : String,
      (Custom.mk n d "phonenumber").Collect "" = (Custom.mk n d "phonenumber").Collect d) ∧
    (∀ n d : String,
      (Custom.mk n d "yesorno").Collect "" = (Custom.mk n d "yesorno").Collect d) ∧
    (∀ n d : String, (Custom.mk n d "integer").Collect "" = Except.ok d) ∧
    (Custom.mk "test" "50" "integer").Collect "abc" = Except.error CustomError.notValidInteger ∧
    (Custom.mk "test" "215-555-5321" "phonenumber").Collect "" = Except.ok "+1.2155555321" := by
  refine ⟨?_, ?_, ?_, by decide, by decide⟩
  · intro n d
    by_cases hd : d = ""
    · rw [hd]
    · simp [Custom.Collect, hd]
  · intro n d
    by_cases hd : d = ""
    · rw [hd]
    · simp [Custom.Collect, hd]
  · intro n d
    rfl

end DeployStack

namespace DeployStack

/-! ## C6: picker choice ordering -/

/-- C6: in the project picker's choice list the synthetic create-new
entry is first; erasing the default marks from the remaining entries
recovers exactly the collaborator's item list (built by `getProjects`)
in its returned order, so marking the entry matching the pre-supplied
default does not move it; and an entry is marked as default exactly
when its value equals the pre-supplied default. -/
theorem c6_project_choice_order (ps : List ProjectWithBilling) (d : String) :
    (projectChoiceList ps d).head? = some createNewProjectChoice ∧
    ((projectChoiceList ps d).tail).map (fun c => Item.mk c.label c.value) =
      getProjectsItems ps ∧
    ∀ c ∈ (projectChoiceList ps d).tail, c.isDefault = (c.value == d) := by
  refine ⟨rfl, ?_, ?_⟩
  · show ((getProjectsItems ps).map
        (fun it => Choice.mk it.label it.value (it.value == d))).map
        (fun c => Item.mk c.label c.value) = getProjectsItems ps
    rw [List.map_map]
    have hid : ((fun c : Choice => Item.mk c.label c.value) ∘
        (fun it : Item => Choice.mk it.label it.value (it.value == d))) = id := by
      funext it
      cases it
      rfl
    rw [hid, List.map_id]
  · intro c hc
    have hc' : c ∈ (getProjectsItems ps).map
        (fun it => Choice.mk it.label it.value (it.value == d)) := hc
    rcases List.mem_map.mp hc' with ⟨it, _, rfl⟩
    rfl

/-- C6, witness: the ordering theorem applied to a concrete project
list with pre-supplied default `test04`, discharging the membership
hypothesis at the marked `test04` entry. -/
theorem c6_project_choice_order_witness :
    (projectChoiceList
        [ProjectWithBilling.mk "test01" "test01" true,
          ProjectWithBilling.mk "test04" "test04" true] "test04").head? =
      some createNewProjectChoice ∧
    (Choice.mk (ChoiceLabel.plain "test04") "test04" true).isDefault =
      ("test04" == "test04") :=
  ⟨(c6_project_choice_order
      [ProjectWithBilling.mk "test01" "test01" true,
        ProjectWithBilling.mk "test04" "test04" true] "test04").1,
    (c6_project_choice_order
      [ProjectWithBilling.mk "test01" "test01" true,
        ProjectWithBilling.mk "test04" "test04" true] "test04").2.2 _ (by decide)⟩

/-! ## C7: project-creation failure kinds -/

/-- C7: a create attempt whose name exceeds the length limit yields the
too-long kind (so in particular any 55-character name), a name within
the limit containing an uppercase letter or a space yields the
invalid-characters kind, and whenever creation fails no setting is
committed to the store. -/
theorem c7_project_create_errors (st : Stack) (ex : List String) (key name : String) :
    (30 < name.length →
      ProjectCreateFlow st ex key name = (st, some ProjectError.createTooLong)) ∧
    (name.length ≤ 30 → name.data.any (fun c => c.isUpper || c == ' ') = true →
      ProjectCreateFlow st ex key name = (st, some ProjectError.invalidCharacters)) ∧
    (∀ e, (ProjectCreateFlow st ex key name).2 = some e →
      (ProjectCreateFlow st ex key name).1 = st) := by
  unfold ProjectCreateFlow ProjectCreate
  refine ⟨?_, ?_, ?_⟩
  · intro h
    rw [if_pos h]
  · intro hlen hany
    rw [if_neg (by omega), if_pos hany]
  · intro e
    by_cases h1 : 30 < name.length
    · rw [if_pos h1]
      intro _
      rfl
    · rw [if_neg h1]
      by_cases h2 : name.data.any (fun c => c.isUpper || c == ' ') = true
      · rw [if_pos h2]
        intro _
        rfl
      · rw [if_neg h2]
        by_cases h3 : ex.any (fun e2 => e2 == name) = true
        · rw [if_pos h3]
          intro _
          rfl
        · rw [if_neg h3]
          intro hc
          exact absurd hc (by simp)

/-- C7, witness: a 55-character name fails as too long without
committing a setting, and a short uppercase name fails with the
invalid-characters kind. -/
theorem c7_project_create_errors_witness :
    ("zprojectnamedeletethisprojectnamehastoomanycharactersxy" : String).length = 55 ∧
    ProjectCreateFlow NewStack [] "project_id"
        "zprojectnamedeletethisprojectnamehastoomanycharactersxy" =
      (NewStack, some ProjectError.createTooLong) ∧
    ProjectCreateFlow NewStack [] "project_id" "ALLUPERCASEDONESTWORKabcde" =
      (NewStack, some ProjectError.invalidCharacters) :=
  ⟨by decide,
    (c7_project_create_errors NewStack [] "project_id" _).1 (by decide),
    (c7_project_create_errors NewStack [] "project_id" _).2.1 (by decide) (by decide)⟩

end DeployStack

namespace DeployStack

/-! ## C8: failure handling and error recovery -/

/-- C8, counterexample: after a failure message carrying no recovery
target, acknowledging with enter leaves the picker, the queue and the
command all unchanged — no quit is issued, so the run does not
terminate as the claim's "otherwise" branch states. -/
theorem c8_counterexample :
    pickerUpdate
        ((pickerUpdate (Picker.mk "querying" "project_id" "" none "" [] 0 false)
            (Queue.mk ["project_id"] 0 NewStack)
            (Msg.errMsg (ErrMsg.mk "Everything broke" "" ""))).1)
        (Queue.mk ["project_id"] 0 NewStack) (Msg.keyMsg "enter") =
      ((pickerUpdate (Picker.mk "querying" "project_id" "" none "" [] 0 false)
          (Queue.mk ["project_id"] 0 NewStack)
          (Msg.errMsg (ErrMsg.mk "Everything broke" "" ""))).1,
        Queue.mk ["project_id"] 0 NewStack, Cmd.noCmd) ∧
    Cmd.noCmd ≠ Cmd.quit :=
  ⟨by decide, by decide⟩

/-- C8, amended: on a failure message the picker records the failure as
its error with the failure's recovery target and enters its error
display without touching the queue; acknowledging with enter when a
recovery target is set clears the committed settings of the pages from
the recovery point onward and jumps there (the queue's position becomes
the target page and no setting for a page at or after it survives);
acknowledging when no recovery target is set changes nothing — the run
does not terminate on its own (termination only via an explicit quit
such as `ctrl+c`). -/
theorem c8_error_recovery :
    (∀ (p : Picker) (q : Queue) (m : ErrMsg),
      pickerUpdate p q (Msg.errMsg m) =
        (Picker.mk "idle" p.key p.value (some m) m.target p.items p.cursor p.hasPost,
          q, Cmd.noCmd)) ∧
    (∀ (p : Picker) (q : Queue),
      p.err.isSome = true → (p.target != "") = true → (p.state == "displaying") = false →
      pickerUpdate p q (Msg.keyMsg "enter") =
        (p, (q.clear p.target).goToModel p.target, Cmd.jumped)) ∧
    (∀ (q : Queue) (t : String) (i : Nat), q.keys.indexOf? t = some i →
      ((q.clear t).goToModel t).current = i ∧
      ((q.clear t).goToModel t).keys = q.keys ∧
      ∀ s ∈ ((q.clear t).goToModel t).stack.Settings, s.Name ∉ q.keys.drop i) ∧
    (∀ (p : Picker) (q : Queue),
      p.err.isSome = true → p.target = "" → (p.state == "displaying") = false →
      pickerUpdate p q (Msg.keyMsg "enter") = (p, q, Cmd.noCmd)) := by
  refine ⟨fun p q m => rfl, ?_, ?_, ?_⟩
  · intro p q h1 h2 h3
    simp [pickerUpdate, h1, h2, h3]
  · intro q t i h
    simp only [Queue.clear, Queue.goToModel, h]
    refine ⟨by trivial, by trivial, ?_⟩
    intro s hs hmem
    rcases List.mem_filter.mp hs with ⟨_, hcond⟩
    simp at hcond
    exact (hcond s.Name hmem) rfl
  · intro p q h1 h2 h3
    simp [pickerUpdate, h1, h2, h3]

/-- C8, witness: the recovery jump applied to a concrete queue holding
settings for `project_id`, `region` and `zone` with a failure targeting
`region`: the position becomes the `region` page and the settings from
`region` onward are cleared. -/
theorem c8_error_recovery_witness :
    pickerUpdate
        (Picker.mk "idle" "zone" "" (some (ErrMsg.mk "fetch failed" "" "region")) "region"
          [] 0 false)
        (Queue.mk ["project_id", "region", "zone"] 2
          (Stack.mk [Setting.mk "project_id" "p1" "", Setting.mk "region" "us-central1" "",
            Setting.mk "zone" "us-central1-a" ""]))
        (Msg.keyMsg "enter") =
      ((Picker.mk "idle" "zone" "" (some (ErrMsg.mk "fetch failed" "" "region")) "region"
          [] 0 false),
        ((Queue.mk ["project_id", "region", "zone"] 2
            (Stack.mk [Setting.mk "project_id" "p1" "", Setting.mk "region" "us-central1" "",
              Setting.mk "zone" "us-central1-a" ""])).clear "region").goToModel "region",
        Cmd.jumped) ∧
    (((Queue.mk ["project_id", "region", "zone"] 2
          (Stack.mk [Setting.mk "project_id" "p1" "", Setting.mk "region" "us-central1" "",
            Setting.mk "zone" "us-central1-a" ""])).clear "region").goToModel "region").current =
      1 :=
  ⟨c8_error_recovery.2.1 _ _ (by decide) (by decide) (by decide),
    (c8_error_recovery.2.2.1 _ "region" 1 (by decide)).1⟩

/-! ## C9: fetch-result merging -/

theorem pickerInsertLoop_append :
    ∀ (inc acc : List Item) (offset i : Nat), acc.length = offset + i →
      pickerInsertLoop offset i acc inc = acc ++ inc := by
  intro inc
  induction inc with
  | nil =>
    intro acc offset i _
    simp [pickerInsertLoop]
  | cons v rest ih =>
    intro acc offset i h
    show pickerInsertLoop offset (i + 1) (insertItemAt acc (i + offset) v) rest =
      acc ++ v :: rest
    have hins : insertItemAt acc (i + offset) v = acc ++ [v] := by
      unfold insertItemAt
      have hoff : i + offset = acc.length := by omega
      rw [hoff, List.take_length, List.drop_length, List.append_nil]
    rw [hins, ih (acc ++ [v]) offset (i + 1) (by rw [List.length_append, h]; simp; omega)]
    simp

theorem pickerMergeItems_append (cur inc : List Item) :
    pickerMergeItems cur inc = cur ++ inc :=
  pickerInsertLoop_append inc cur cur.length 0 (by omega)

/-- C9, counterexample: the picker's result merge carries no sub-field
identity and is not arrival-order independent — delivering the results
`[p1]` and `[p2]` in the two orders yields differently ordered choice
lists, and re-delivering the same result duplicates it. -/
theorem c9_counterexample :
    ((pickerUpdate
        ((pickerUpdate (Picker.mk "querying" "project_id" "" none "" [] 0 false)
            (Queue.mk ["project_id"] 0 NewStack)
            (Msg.listItems [Item.mk (ChoiceLabel.plain "p1") "p1"])).1)
        (Queue.mk ["project_id"] 0 NewStack)
        (Msg.listItems [Item.mk (ChoiceLabel.plain "p2") "p2"])).1).items =
      [Item.mk (ChoiceLabel.plain "p1") "p1", Item.mk (ChoiceLabel.plain "p2") "p2"] ∧
    ((pickerUpdate
        ((pickerUpdate (Picker.mk "querying" "project_id" "" none "" [] 0 false)
            (Queue.mk ["project_id"] 0 NewStack)
            (Msg.listItems [Item.mk (ChoiceLabel.plain "p2") "p2"])).1)
        (Queue.mk ["project_id"] 0 NewStack)
        (Msg.listItems [Item.mk (ChoiceLabel.plain "p1") "p1"])).1).items =
      [Item.mk (ChoiceLabel.plain "p2") "p2", Item.mk (ChoiceLabel.plain "p1") "p1"] ∧
    ((pickerUpdate
        ((pickerUpdate (Picker.mk "querying" "project_id" "" none "" [] 0 false)
            (Queue.mk ["project_id"] 0 NewStack)
            (Msg.listItems [Item.mk (ChoiceLabel.plain "p1") "p1"])).1)
        (Queue.mk ["project_id"] 0 NewStack)
        (Msg.listItems [Item.mk (ChoiceLabel.plain "p2") "p2"])).1) ≠
      ((pickerUpdate
        ((pickerUpdate (Picker.mk "querying" "project_id" "" none "" [] 0 false)
            (Queue.mk ["project_id"] 0 NewStack)
            (Msg.listItems [Item.mk (ChoiceLabel.plain "p2") "p2"])).1)
        (Queue.mk ["project_id"] 0 NewStack)
        (Msg.listItems [Item.mk (ChoiceLabel.plain "p1") "p1"])).1) ∧
    ((pickerUpdate
        ((pickerUpdate (Picker.mk "querying" "project_id" "" none "" [] 0 false)
            (Queue.mk ["project_id"] 0 NewStack)
            (Msg.listItems [Item.mk (ChoiceLabel.plain "p1") "p1"])).1)
        (Queue.mk ["project_id"] 0 NewStack)
        (Msg.listItems [Item.mk (ChoiceLabel.plain "p1") "p1"])).1).items =
      [Item.mk (ChoiceLabel.plain "p1") "p1", Item.mk (ChoiceLabel.plain "p1") "p1"] :=
  ⟨by decide, by decide, by decide, by decide⟩

/-- C9, amended: a successful fetch result is appended at the end of
the page's current choice list in arrival order (the page entering the
displaying state, queue untouched); results carry no per-sub-field
identity inside a page, so merging is order dependent and re-delivery
duplicates — independence between sub-fields comes from the batch pages
registering one page per sub-field. -/
theorem c9_fetch_results_append (p : Picker) (q : Queue) (items : List Item) :
    pickerUpdate p q (Msg.listItems items) =
      (Picker.mk "displaying" p.key p.value p.err p.target (p.items ++ items)
        p.cursor p.hasPost, q, Cmd.tick) := by
  show (Picker.mk "displaying" p.key p.value p.err p.target
      (pickerMergeItems p.items items) p.cursor p.hasPost, q, Cmd.tick) = _
  rw [pickerMergeItems_append]

end DeployStack

namespace DeployStack

/-! ## C10: unguarded indexing in the by-family list operations -/

/-- C10: the by-family list operations have an unstated non-emptiness
precondition: when no image has the requested family,
`ImageTypeListByFamily` (and its package-level copy) hits the unguarded
`lb[len(lb)-1]` index and panics — modelled as `none`; when no machine
type's name contains the requested family, `MachineTypeListByFamily`
(and its copy) hits the unguarded `lb[0]` index and panics; and neither
operation ever returns an empty list. -/
theorem c10_by_family_empty_input_panics :
    (∀ (imgs : List ComputeImage) (project family : String),
      (∀ v ∈ imgs, v.Family ≠ family) →
        ImageTypeListByFamily imgs project family = none ∧
        ComputeImageTypeListByFamily imgs project family = none) ∧
    (∀ (mts : List ComputeMachineType) (family : String),
      (∀ v ∈ mts, goContains v.Name family = false) →
        MachineTypeListByFamily mts family = none ∧
        ComputeMachineTypeListByFamily mts family = none) ∧
    (∀ (imgs : List ComputeImage) (project family : String),
      ImageTypeListByFamily imgs project family ≠ some []) ∧
    (∀ (mts : List ComputeMachineType) (family : String),
      MachineTypeListByFamily mts family ≠ some []) := by
  have himg : ∀ (imgs : List ComputeImage) (project family : String),
      (∀ v ∈ imgs, v.Family ≠ family) → ImageTypeListByFamily imgs project family = none := by
    intro imgs project family h
    have hlb : (imgs.filterMap fun v =>
        if v.Family == family then
          some (LabeledValue.mk v.Name (project ++ "/" ++ v.Name) false)
        else none) = [] := by
      rw [List.filterMap_eq_nil_iff]
      intro v hv
      rw [if_neg (by simp [h v hv])]
    simp only [ImageTypeListByFamily]
    rw [hlb]
    rfl
  have hmt : ∀ (mts : List ComputeMachineType) (family : String),
      (∀ v ∈ mts, goContains v.Name family = false) →
      MachineTypeListByFamily mts family = none := by
    intro mts family h
    have hfil : (mts.filter fun v => goContains v.Name family) = [] := by
      rw [List.filter_eq_nil_iff]
      intro v hv
      simp [h v hv]
    simp only [MachineTypeListByFamily]
    rw [hfil]
    rfl
  refine ⟨fun imgs project family h => ⟨himg imgs project family h, himg imgs project family h⟩,
    fun mts family h => ⟨hmt mts family h, hmt mts family h⟩, ?_, ?_⟩
  · intro imgs project family hcontra
    simp only [ImageTypeListByFamily] at hcontra
    split at hcontra
    · exact absurd hcontra (by simp)
    · next last heq =>
      have h0 := Option.some.inj hcontra
      have hlen := congrArg List.length h0
      simp only [LabeledValues.SetDefault, List.length_map, LabeledValues.Sort] at hlen
      rw [(List.perm_insertionSort _ _).length_eq] at hlen
      simp at hlen
  · intro mts family hcontra
    simp only [MachineTypeListByFamily] at hcontra
    split at hcontra
    · exact absurd hcontra (by simp)
    · next first heq =>
      have h0 := Option.some.inj hcontra
      simp only [LabeledValues.SetDefault] at h0
      rw [List.map_eq_nil_iff] at h0
      rw [h0] at heq
      simp at heq

/-- C10, witness: a concrete image list containing only the family
`debian-11` makes `ImageTypeListByFamily` for `ubuntu-2204` panic
(`none`), and a machine-type list containing only `n1-standard-1`
makes `MachineTypeListByFamily` for family `e2` panic. -/
theorem c10_by_family_empty_input_panics_witness :
    ImageTypeListByFamily [ComputeImage.mk "debian-11-bullseye-v2023" "debian-11"]
        "debian-cloud" "ubuntu-2204" = none ∧
    MachineTypeListByFamily [ComputeMachineType.mk "n1-standard-1" "1 vCPU 3.75 GB" 1]
        "e2" = none :=
  ⟨(c10_by_family_empty_input_panics.1 _ "debian-cloud" "ubuntu-2204" (by decide)).1,
    (c10_by_family_empty_input_panics.2.1 _ "e2" (by decide)).1⟩

end DeployStack
